import Mathlib

/-
Verification development for the arbitrage monitoring bot
(testbot/bot/final_bot.py, class ArbitrageMonitor).

Modelling conventions:
* Python floats are modelled as exact rationals (the quantities in the
  claims are exactly representable); Python `int(x)` truncation toward
  zero is `pythonInt`.
* Every on-chain RPC call is passed in explicitly as an `Option` value:
  `none` models a revert / raised exception, `some v` a successful result.
* Python dicts keyed by strings are association lists updated by
  `assoc_set` (update in place if the key exists, append otherwise);
  insertion order is preserved, matching dict iteration order.
* The asyncio trade lock and the try/except/finally control flow of
  `execute_arbitrage` are modelled as explicit step traces.
-/

/-- DEXInfo dataclass (final_bot.py lines 105-109). -/
structure DEXInfo where
  name : String
  router_address : String
  factory_address : String
deriving DecidableEq

/-- ArbitrageOpportunity dataclass (final_bot.py lines 111-124).
The `timestamp` field (`datetime.now()`) is wall-clock I/O and carries no
information used by any computation, so it is omitted from the model. -/
structure ArbitrageOpportunity where
  token_address : String
  token_symbol : String
  stable_token : String
  amount : ℤ
  buy_dex : String
  sell_dex : String
  buy_price : ℚ
  sell_price : ℚ
  expected_profit : ℚ
  gas_cost : ℚ
  net_profit : ℚ
deriving DecidableEq

/-- The static DEX configuration `self.dexes` (final_bot.py lines 149-154). -/
def dexes : List (String × DEXInfo) :=
  [("uniswap_v2", ⟨"Uniswap V2 (Base)", "0x4752ba5dbc23f44d87826276bf6fd6b1c372ad24",
      "0x8909dc15e40173ff4699343b6eb8132c65e18ec6"⟩),
   ("pancake", ⟨"PancakeSwap V2", "0x8cFe327CEc66d1C090Dd72bd0FF11d690C33a2Eb",
      "0x02a84c1b3BBD7401a5f7fa98a384EBC70bB5749E"⟩),
   ("baseswap", ⟨"BaseSwap", "0x327Df1E6de05895d2ab08513aaDD9313Fe505d86",
      "0xFDa619b6d20975be80A10332cD39b9a4b0FAa8BB"⟩),
   ("sushiswap_v2", ⟨"SushiSwap V2", "0x6BDED42c6DA8FBf0d2bA55B2fa120C5e0c8D7891",
      "0x71524B4f93c58fcbF659783284E38825f0622859"⟩)]

/-- The USDC address used as the only stable token (final_bot.py line 156). -/
def USDC_ADDRESS : String := "0x833589fCD6eDb6E08f4c7C32D4f71b54bdA02913"

/-- `self.stable_tokens` (final_bot.py line 156). -/
def stable_tokens : List (String × String) := [("USDC", USDC_ADDRESS)]

/-- `self.min_profit_threshold = 10` (final_bot.py line 173). -/
def min_profit_threshold : ℚ := 10

/-- `self.max_flash_loan_amount = 5000` (final_bot.py line 174). -/
def max_flash_loan_amount : ℚ := 5000

/-- Python `int(x)` on a float: truncation toward zero. -/
def pythonInt (q : ℚ) : ℤ := if 0 ≤ q then ⌊q⌋ else -⌊-q⌋

/-- Python `str.lower()`: lowercase each character (defined structurally on
the character list so that proofs can evaluate it on concrete addresses). -/
def string_lower (s : String) : String := ⟨s.data.map Char.toLower⟩

/-- Result of one call to `get_token_decimals`: the returned decimal count,
the decimals cache after the call, and how many on-chain calls were issued
by this invocation (0 or 1). -/
structure DecimalsResult where
  decimals : ℕ
  cache : List (String × ℕ)
  onchain_calls : ℕ
deriving DecidableEq

/-- `get_token_decimals` (final_bot.py lines 233-241), with the state
threaded explicitly. `oracle` is the outcome of the on-chain
`decimals()` call (`none` = the call raised). The cache is consulted
first; on a cache miss the on-chain call is issued; its result is cached
only on success, while a failure returns 18 without touching the cache. -/
def get_token_decimals (cache : List (String × ℕ)) (token_address : String)
    (oracle : Option ℕ) : DecimalsResult :=
  let key := string_lower token_address
  match cache.lookup key with
  | some d => ⟨d, cache, 0⟩
  | none =>
    match oracle with
    | some d => ⟨d, cache ++ [(key, d)], 1⟩
    | none => ⟨18, cache, 1⟩

/-- `get_token_price` (final_bot.py lines 243-254). `amounts_out_1` is
`amounts_out[1]`, the router's `getAmountsOut` result for one whole token
(`none` models a revert or any raised exception, caught by the
surrounding `except`). The raw amount is normalized by the stable asset's
decimals and filtered by `0 < price < 1e12`. -/
def get_token_price (amounts_out_1 : Option ℤ) (stable_decimals : ℕ) : Option ℚ :=
  match amounts_out_1 with
  | none => none
  | some a =>
    let price : ℚ := (a : ℚ) / 10 ^ stable_decimals
    if 0 < price ∧ price < 10 ^ 12 then some price else none

/-- Python dict assignment `m[k] = v` on an association list: replace the
value in place when the key is present, append otherwise. -/
def assoc_set {α : Type} : List (String × α) → String → α → List (String × α)
  | [], k, v => [(k, v)]
  | (k', v') :: rest, k, v =>
    if k' = k then (k, v) :: rest else (k', v') :: assoc_set rest k v

/-- `self.price_cache`: token address (lowercased) → DEX key → price. -/
abbrev PriceCache := List (String × List (String × ℚ))

/-- The cache write of `update_price_for_dex` (final_bot.py lines 403-405):
ensure the per-token dict exists, then assign the DEX entry. -/
def price_cache_set (cache : PriceCache) (key dex_key : String) (price : ℚ) :
    PriceCache :=
  let entry := (cache.lookup key).getD []
  assoc_set cache key (assoc_set entry dex_key price)

/-- `update_price_for_dex` (final_bot.py lines 399-407), parametrized by the
raw router result feeding `get_token_price`. The `if price:` guard is
Python truthiness: both `None` and `0.0` leave the cache unchanged. -/
def update_price_for_dex (cache : PriceCache) (token_address dex_key : String)
    (amounts_out_1 : Option ℤ) (stable_decimals : ℕ) : PriceCache :=
  match get_token_price amounts_out_1 stable_decimals with
  | none => cache
  | some price =>
    if price = 0 then cache
    else price_cache_set cache (string_lower token_address) dex_key price

/-- One price-update request: which (token, DEX) to refresh and what the
router call returned for it. -/
structure PriceUpdate where
  token_address : String
  dex_key : String
  amounts_out_1 : Option ℤ
  stable_decimals : ℕ

/-- A sequence of `update_price_for_dex` calls applied to a cache. -/
def run_updates (cache : PriceCache) : List PriceUpdate → PriceCache
  | [] => cache
  | u :: us =>
    run_updates
      (update_price_for_dex cache u.token_address u.dex_key u.amounts_out_1 u.stable_decimals) us

/-- Read one (token key, DEX key) entry of the price cache. -/
def lookup2 (cache : PriceCache) (key dex_key : String) : Option ℚ :=
  ((cache.lookup key).getD []).lookup dex_key

/-- The Quote Client's sanity bounds: a plausible price is strictly positive
and strictly below 1e12 stable units per token. -/
def valid_price (p : ℚ) : Prop := 0 < p ∧ p < 10 ^ 12

/-- Every price stored anywhere in the cache satisfies the sanity bounds. -/
def cache_valid (cache : PriceCache) : Prop :=
  ∀ tk entry, (tk, entry) ∈ cache → ∀ dk p, (dk, p) ∈ entry → valid_price p

/-- Python `min(prices.items(), key=lambda item: item[1])`: the first item
with the least value (final_bot.py line 352). -/
def min_by_price : List (String × ℚ) → Option (String × ℚ)
  | [] => none
  | x :: xs => some (xs.foldl (fun acc y => if y.2 < acc.2 then y else acc) x)

/-- Python `max(prices.items(), key=lambda item: item[1])`: the first item
with the greatest value (final_bot.py line 353). -/
def max_by_price : List (String × ℚ) → Option (String × ℚ)
  | [] => none
  | x :: xs => some (xs.foldl (fun acc y => if acc.2 < y.2 then y else acc) x)

/-- `price_diff_percent = ((max_price - min_price) / min_price) * 100`
(final_bot.py line 357). -/
def price_diff_percent (min_price max_price : ℚ) : ℚ :=
  (max_price - min_price) / min_price * 100

/-- The acceptance band `0.8 < price_diff_percent < 50.0`
(final_bot.py line 360), strict at both ends. -/
def spread_band_ok (p : ℚ) : Bool :=
  decide ((0.8 : ℚ) < p) && decide (p < (50.0 : ℚ))

/-- The price-collection loop of `check_and_execute_opportunity`
(final_bot.py lines 345-348): for each selected DEX in order, read the
cached price and keep it when truthy (`if price:` drops `None` and `0.0`). -/
def collect_prices (price_cache : PriceCache) (token_address : String)
    (selected_dexes : List String) : List (String × ℚ) :=
  selected_dexes.filterMap (fun dex =>
    match lookup2 price_cache (string_lower token_address) dex with
    | none => none
    | some p => if p = 0 then none else some (dex, p))

/-- `check_and_execute_opportunity` (final_bot.py lines 343-397) up to the
construction of the `ArbitrageOpportunity` (the subsequent fire-and-forget
task spawn is modelled separately). `gas_cost_usd` is the result of
`estimate_gas_cost` (external I/O; its fallback value is 10.0). Returns
`some opportunity` exactly when the source constructs one. -/
def check_and_execute_opportunity (price_cache : PriceCache)
    (selected_dexes : List String) (token_address token_symbol stable_token : String)
    (stable_decimals : ℕ) (gas_cost_usd : ℚ) : Option ArbitrageOpportunity :=
  let prices := collect_prices price_cache token_address selected_dexes
  if prices.length < 2 then none
  else
    match min_by_price prices, max_by_price prices with
    | some (min_price_dex, min_price), some (max_price_dex, max_price) =>
      if min_price_dex = max_price_dex then none
      else
        let pd := price_diff_percent min_price max_price
        if spread_band_ok pd then
          let flash_loan_amount_usd := max_flash_loan_amount
          let flash_loan_amount_wei := pythonInt (flash_loan_amount_usd * 10 ^ stable_decimals)
          let gross_profit_usd := flash_loan_amount_usd * (pd / 100)
          let net_profit_usd := gross_profit_usd - gas_cost_usd
          if net_profit_usd > min_profit_threshold then
            some
              { token_address := token_address
                token_symbol := token_symbol
                stable_token := stable_token
                amount := flash_loan_amount_wei
                buy_dex := min_price_dex
                sell_dex := max_price_dex
                buy_price := min_price
                sell_price := max_price
                expected_profit := gross_profit_usd
                gas_cost := gas_cost_usd
                net_profit := net_profit_usd }
          else none
        else none
    | _, _ => none

/-- The fixed-order parameter tuple the coordinator submits on chain
(ABI field names, final_bot.py line 159). -/
structure ExecuteParams where
  tokenA : String
  tokenB : String
  flashLoanAmount : ℤ
  dexLowPrice : String
  dexHighPrice : String
  user : String
  minProfit : ℤ
deriving DecidableEq

/-- `params_tuple` of `execute_arbitrage` (final_bot.py lines 306-314).
Checksumming only re-capitalizes hex digits; addresses in the model are
opaque strings, so it is the identity here. `minProfit` is
`int(opportunity.net_profit * (10**6) * 0.9)`. -/
def execute_params (account_address : String) (opp : ArbitrageOpportunity) :
    ExecuteParams :=
  { tokenA := opp.token_address
    tokenB := (stable_tokens.lookup opp.stable_token).getD ""
    flashLoanAmount := opp.amount
    dexLowPrice := ((dexes.lookup opp.buy_dex).getD ⟨"", "", ""⟩).router_address
    dexHighPrice := ((dexes.lookup opp.sell_dex).getD ⟨"", "", ""⟩).router_address
    user := account_address
    minProfit := pythonInt (opp.net_profit * 10 ^ 6 * (0.9 : ℚ)) }

/-- Where inside the try-body of `execute_arbitrage` an exception is raised,
for the exceptional outcomes: during parameter construction / nonce fetch
(before `build_transaction`), during signing, or during submission. -/
inductive RaisePoint
  | duringParams
  | duringSigning
  | duringSubmission
deriving DecidableEq

/-- The four execution outcomes of `execute_arbitrage`: receipt status 1,
receipt status ≠ 1, `wait_for_transaction_receipt` raising on timeout, and
an exception raised earlier in the try-body. -/
inductive ExecOutcome
  | success
  | reverted
  | receiptTimeout
  | raised (p : RaisePoint)
deriving DecidableEq

/-- Observable steps of one `execute_arbitrage` invocation. -/
inductive Step
  | acquireLock
  | logStart
  | buildTx
  | signTx
  | submitTx
  | awaitReceipt
  | logSuccess
  | logRevert
  | sleepSeconds (n : ℕ)
  | logError
  | releaseLock
deriving DecidableEq

/-- The try-body of `execute_arbitrage` (final_bot.py lines 302-336): the
steps it performs for a given outcome, and whether it raised. On the
receipt paths the body ends with the fixed 60-second cooldown sleep
(line 336, inside the try); the exceptional paths leave the body early. -/
def execute_try_body : ExecOutcome → List Step × Bool
  | .success =>
    ([.logStart, .buildTx, .signTx, .submitTx, .awaitReceipt, .logSuccess,
      .sleepSeconds 60], false)
  | .reverted =>
    ([.logStart, .buildTx, .signTx, .submitTx, .awaitReceipt, .logRevert,
      .sleepSeconds 60], false)
  | .receiptTimeout =>
    ([.logStart, .buildTx, .signTx, .submitTx, .awaitReceipt], true)
  | .raised .duringParams => ([.logStart], true)
  | .raised .duringSigning => ([.logStart, .buildTx], true)
  | .raised .duringSubmission => ([.logStart, .buildTx, .signTx], true)

/-- The full step trace of one `execute_arbitrage` invocation
(final_bot.py lines 297-341): acquire the lock, run the try-body, run the
except-handler (a log line) when the body raised, and always run the
finally-block releasing the lock. -/
def execute_arbitrage_steps (o : ExecOutcome) : List Step :=
  let body := execute_try_body o
  Step.acquireLock :: body.1 ++ (if body.2 then [Step.logError] else []) ++ [Step.releaseLock]

/-- Semantics of `asyncio.Lock.acquire()` (the `await self.trade_lock.acquire()`
call at final_bot.py line 298): it waits until the lock is free, then locks
it and returns `True`. It has no non-blocking mode: the returned value is
always `True`; the second component records whether the caller had to wait
because the lock was held at entry. -/
def asyncio_lock_acquire (lock_held_at_entry : Bool) : Bool × Bool :=
  (true, lock_held_at_entry)

/-- One `execute_arbitrage` invocation including the guard
`if not await self.trade_lock.acquire(): return` (final_bot.py
lines 298-300): when `acquire()` returns `False` the function returns at
once with no steps performed; otherwise the full trace runs. The second
component records whether the invocation had to wait for the lock. -/
def execute_arbitrage_run (lock_held_at_entry : Bool) (o : ExecOutcome) :
    List Step × Bool :=
  let acq := asyncio_lock_acquire lock_held_at_entry
  if acq.1 = false then ([], acq.2)
  else (execute_arbitrage_steps o, acq.2)

/-- The trade lock's state after a list of steps: `acquireLock` locks it,
`releaseLock` unlocks it. -/
def lock_state_after (start : Bool) (steps : List Step) : Bool :=
  steps.foldl
    (fun st s =>
      match s with
      | Step.acquireLock => true
      | Step.releaseLock => false
      | _ => st) start

/-- Watcher state carried across iterations of `subscribe_to_swap`
(final_bot.py lines 422-460): the consecutive-error counter, and a
generation counter incremented each time the log filter is (re)created by
the outer loop (line 427). -/
structure WatcherState where
  consecutive_errors : ℕ
  filter_generation : ℕ
deriving DecidableEq

/-- Outcome of one poll of the event filter: a successful
`get_new_entries` returning `n` entries, or a raised exception whose
message contains "filter not found", or any other exception. -/
inductive PollResult
  | events (n : ℕ)
  | filterNotFound
  | otherError
deriving DecidableEq

/-- Effect of one poll iteration of `subscribe_to_swap`
(final_bot.py lines 429-460) on the watcher state: returns the new state,
the seconds slept before the next poll, and whether the failure was logged
at error level. A successful poll resets the error counter and sleeps 2s
with the same filter. Any exception — "filter not found" included —
increments the counter, sleeps `min(5 * consecutive_errors, 60)` seconds,
and re-enters the outer loop, which creates a fresh filter; only the log
level distinguishes the filter-expiry case (debug) from other errors. -/
def watcher_step (s : WatcherState) (r : PollResult) : WatcherState × ℕ × Bool :=
  match r with
  | .events _ => (⟨0, s.filter_generation⟩, 2, false)
  | .filterNotFound =>
    let c := s.consecutive_errors + 1
    (⟨c, s.filter_generation + 1⟩, min (5 * c) 60, false)
  | .otherError =>
    let c := s.consecutive_errors + 1
    (⟨c, s.filter_generation + 1⟩, min (5 * c) 60, true)

/-- A concrete opportunity as produced by the evaluator from cached prices
{dexA: 200, dexB: 204} with stable decimals 6 and gas cost 10 (used to
instantiate the coordinator-parameter theorem). -/
def c8_opp : ArbitrageOpportunity :=
  { token_address := "0xtok2"
    token_symbol := "TK2"
    stable_token := "USDC"
    amount := 5000000000
    buy_dex := "dexA"
    sell_dex := "dexB"
    buy_price := 200
    sell_price := 204
    expected_profit := 100
    gas_cost := 10
    net_profit := 90 }

/-- Claim C1: for every execution outcome of `execute_arbitrage` — receipt
status 1, receipt status other than 1, receipt timeout, or an exception
raised during parameter construction, signing, or submission — the trade
lock is released exactly once, as the last step before the operation
returns, and the lock ends up free so a later opportunity can acquire it. -/
theorem C1_lock_released_once (o : ExecOutcome) :
    (execute_arbitrage_steps o).count Step.releaseLock = 1 ∧
    (execute_arbitrage_steps o).getLast? = some Step.releaseLock ∧
    lock_state_after true (execute_arbitrage_steps o) = false := by
  rcases o with _ | _ | _ | p
  · decide
  · decide
  · decide
  · rcases p with _ | _ | _ <;> decide

/-- Witness for C1: the lock-release property evaluated at the
receipt-timeout outcome. -/
theorem C1_lock_released_once_witness :
    (execute_arbitrage_steps ExecOutcome.receiptTimeout).count Step.releaseLock = 1 ∧
    (execute_arbitrage_steps ExecOutcome.receiptTimeout).getLast? =
      some Step.releaseLock ∧
    lock_state_after true (execute_arbitrage_steps ExecOutcome.receiptTimeout) = false :=
  C1_lock_released_once ExecOutcome.receiptTimeout

/-- Claim C2 is false on the code: `await self.trade_lock.acquire()` blocks
until the lock is free and always returns `True`, so an invocation entered
while the lock is held waits (second conjunct: it had to wait), does not
return early (its trace is non-empty), and still submits a transaction —
instead of observing the lock held and returning immediately without
submitting, as the claim states. -/
theorem C2_second_invocation_blocks_and_submits :
    (asyncio_lock_acquire true).1 = true ∧
    (execute_arbitrage_run true ExecOutcome.success).2 = true ∧
    (execute_arbitrage_run true ExecOutcome.success).1 ≠ [] ∧
    Step.submitTx ∈ (execute_arbitrage_run true ExecOutcome.success).1 := by
  decide

/-- Claim C3: with cached prices {dexA: 100, dexB: 102} over the selected
DEXes, spreadPercent = 2, and with threshold 10, notional 5000 and gas
cost 10 the evaluator returns an opportunity buying on dexA and selling on
dexB with net profit 90. -/
theorem C3_spread_evaluation :
    check_and_execute_opportunity
        [("0xtok", [("dexA", 100), ("dexB", 102)])] ["dexA", "dexB"]
        "0xtok" "TOK" "USDC" 6 10 =
      some
        { token_address := "0xtok"
          token_symbol := "TOK"
          stable_token := "USDC"
          amount := 5000000000
          buy_dex := "dexA"
          sell_dex := "dexB"
          buy_price := 100
          sell_price := 102
          expected_profit := 100
          gas_cost := 10
          net_profit := 90 } ∧
    price_diff_percent 100 102 = 2 := by
  have hprices :
      collect_prices [("0xtok", [("dexA", (100 : ℚ)), ("dexB", 102)])] "0xtok"
        ["dexA", "dexB"] = [("dexA", 100), ("dexB", 102)] := by decide
  have hmin : min_by_price [("dexA", (100 : ℚ)), ("dexB", 102)] = some ("dexA", 100) := by
    decide
  have hmax : max_by_price [("dexA", (100 : ℚ)), ("dexB", 102)] = some ("dexB", 102) := by
    decide
  constructor
  · simp only [check_and_execute_opportunity, hprices, hmin, hmax]
    norm_num [price_diff_percent, spread_band_ok, min_profit_threshold,
      max_flash_loan_amount, pythonInt, ArbitrageOpportunity.mk.injEq]
    exact fun h => absurd h (by decide)
  · norm_num [price_diff_percent]

/-- Claim C6 is false on the code: a "filter not found" failure at error
count 0 leaves the counter at 1 (it is incremented, line 450 runs before
the message check) and sleeps the 5-second backoff instead of the normal
2-second poll interval. -/
theorem C6_counterexample :
    (watcher_step ⟨0, 0⟩ PollResult.filterNotFound).1.consecutive_errors = 1 ∧
    (watcher_step ⟨0, 0⟩ PollResult.filterNotFound).2.1 = 5 := by
  decide

/-- Claim C6 amended: on a "filter not found" failure the watcher does
recreate its filter (generation + 1) and remains polling, and the failure
is not logged at error level; but the consecutive-error counter is
incremented and a backoff sleep of min(5 * errors, 60) seconds is applied,
exactly as for any other error. The next successful poll then processes
its events normally and resets the counter to zero. -/
theorem C6_amended_filter_expiry (s : WatcherState) :
    watcher_step s PollResult.filterNotFound =
      (⟨s.consecutive_errors + 1, s.filter_generation + 1⟩,
        min (5 * (s.consecutive_errors + 1)) 60, false) ∧
    ∀ n, watcher_step ⟨s.consecutive_errors + 1, s.filter_generation + 1⟩
        (PollResult.events n) = (⟨0, s.filter_generation + 1⟩, 2, false) := by
  exact ⟨rfl, fun n => rfl⟩

/-- Witness for C6 (amended): the filter-expiry behaviour evaluated at a
concrete watcher state with 2 prior errors. -/
theorem C6_amended_filter_expiry_witness :
    watcher_step ⟨2, 7⟩ PollResult.filterNotFound = (⟨3, 8⟩, 15, false) ∧
    watcher_step ⟨3, 8⟩ (PollResult.events 1) = (⟨0, 8⟩, 2, false) :=
  ⟨(C6_amended_filter_expiry ⟨2, 7⟩).1, (C6_amended_filter_expiry ⟨2, 7⟩).2 1⟩

/-- Claim C9 is false on the code: the 60-second cooldown sleep sits inside
the try-block after receipt interpretation, so on a receipt timeout or an
exception during submission the sleep never runs. -/
theorem C9_counterexample :
    (execute_arbitrage_steps ExecOutcome.receiptTimeout).count (Step.sleepSeconds 60) = 0 ∧
    (execute_arbitrage_steps (ExecOutcome.raised RaisePoint.duringSubmission)).count
      (Step.sleepSeconds 60) = 0 := by
  decide

/-- Claim C9 amended: the fixed 60-second cooldown sleep occurs exactly on
the outcomes where a receipt was obtained and interpreted (status 1 or a
revert); on a receipt timeout or an exception during parameter
construction, signing, or submission, the cooldown is skipped and the lock
is released immediately. -/
theorem C9_amended_cooldown (o : ExecOutcome) :
    (execute_arbitrage_steps o).count (Step.sleepSeconds 60) =
      (if o = ExecOutcome.success ∨ o = ExecOutcome.reverted then 1 else 0) := by
  rcases o with _ | _ | _ | p
  · decide
  · decide
  · decide
  · rcases p with _ | _ | _ <;> decide

/-- Witness for C9 (amended): the cooldown count evaluated at the success
outcome. -/
theorem C9_amended_cooldown_witness :
    (execute_arbitrage_steps ExecOutcome.success).count (Step.sleepSeconds 60) =
      (if ExecOutcome.success = ExecOutcome.success ∨
          ExecOutcome.success = ExecOutcome.reverted then 1 else 0) :=
  C9_amended_cooldown ExecOutcome.success

/-- Claim C4: the acceptance band `0.8 < spread < 50` is strict at both
ends — a spread of exactly 0.8 is rejected, 0.81 passes, exactly 50 is
rejected, 49.9 passes — and for every token and cached price set whose
computed spread fails the band check, the evaluator returns no
opportunity. -/
theorem C4_spread_band :
    spread_band_ok 0.8 = false ∧ spread_band_ok 0.81 = true ∧
    spread_band_ok 50 = false ∧ spread_band_ok 49.9 = true ∧
    ∀ pc sel ta ts st dec gas mnd mnp mxd mxp,
      min_by_price (collect_prices pc ta sel) = some (mnd, mnp) →
      max_by_price (collect_prices pc ta sel) = some (mxd, mxp) →
      spread_band_ok (price_diff_percent mnp mxp) = false →
      check_and_execute_opportunity pc sel ta ts st dec gas = none := by
  refine ⟨by norm_num [spread_band_ok], by norm_num [spread_band_ok],
    by norm_num [spread_band_ok], by norm_num [spread_band_ok], ?_⟩
  intro pc sel ta ts st dec gas mnd mnp mxd mxp hmn hmx hband
  simp only [check_and_execute_opportunity, hmn, hmx, hband]
  split
  · rfl
  · split
    · rfl
    · simp

/-- Witness for C4: cached prices {a: 1000, b: 1008} give a spread of
exactly 0.8, which the evaluator rejects. -/
theorem C4_spread_band_witness :
    check_and_execute_opportunity [("0xt", [("a", 1000), ("b", 1008)])] ["a", "b"]
      "0xt" "S" "USDC" 6 10 = none :=
  C4_spread_band.2.2.2.2 [("0xt", [("a", 1000), ("b", 1008)])] ["a", "b"] "0xt" "S"
    "USDC" 6 10 "a" 1000 "b" 1008 (by decide) (by decide)
    (by norm_num [spread_band_ok, price_diff_percent])

/-- Claim C5: the quote client returns none (not an error) when the router
call reverts, when the normalized price is non-positive, and when it is at
or above the 1e12 sanity bound; a quote computing to 2e12 is rejected
while 2e11 is returned as a price. -/
theorem C5_price_sanity (a : ℤ) (dec : ℕ) :
    get_token_price none dec = none ∧
    ((a : ℚ) / 10 ^ dec ≤ 0 → get_token_price (some a) dec = none) ∧
    ((10 ^ 12 : ℚ) ≤ (a : ℚ) / 10 ^ dec → get_token_price (some a) dec = none) ∧
    get_token_price (some (2 * 10 ^ 18)) 6 = none ∧
    get_token_price (some (2 * 10 ^ 17)) 6 = some (2 * 10 ^ 11) := by
  refine ⟨rfl, ?_, ?_, ?_, ?_⟩
  · intro h
    have hc : ¬(0 < (a : ℚ) / 10 ^ dec ∧ (a : ℚ) / 10 ^ dec < 10 ^ 12) :=
      fun hcon => absurd h (not_le.mpr hcon.1)
    simp only [get_token_price, if_neg hc]
  · intro h
    have hc : ¬(0 < (a : ℚ) / 10 ^ dec ∧ (a : ℚ) / 10 ^ dec < 10 ^ 12) :=
      fun hcon => absurd h (not_le.mpr hcon.2)
    simp only [get_token_price, if_neg hc]
  · norm_num [get_token_price]
  · norm_num [get_token_price]

/-- Witness for C5: a negative quote and an oversized quote both yield none
at concrete inputs. -/
theorem C5_price_sanity_witness :
    get_token_price (some (-5)) 6 = none ∧
    get_token_price (some (3 * 10 ^ 18)) 6 = none :=
  ⟨(C5_price_sanity (-5) 6).2.1 (by norm_num),
   (C5_price_sanity (3 * 10 ^ 18) 6).2.2.1 (by norm_num)⟩

/-- Claim C7 is false on the code: when the on-chain decimals lookup fails,
18 is returned but nothing is cached (the cache write at line 239 is only
reached on success), so a second call for the same address issues a second
on-chain call — two calls in total, not the claimed one. -/
theorem C7_counterexample :
    (get_token_decimals [] "0xabc" none).onchain_calls +
      (get_token_decimals (get_token_decimals [] "0xabc" none).cache "0xabc"
        none).onchain_calls = 2 := by
  decide

/-- List.lookup finds a value appended behind entries that miss the key. -/
theorem lookup_append_of_none {β : Type} (l : List (String × β)) (k : String) (v : β)
    (h : l.lookup k = none) : (l ++ [(k, v)]).lookup k = some v := by
  induction l with
  | nil => simp [List.lookup]
  | cons x xs ih =>
    obtain ⟨k', v'⟩ := x
    simp only [List.lookup, List.cons_append] at h ⊢
    cases hk : k == k' with
    | true => rw [hk] at h; simp at h
    | false => rw [hk] at h; exact ih h

/-- Claim C7 amended: for an address not yet cached, a successful first
lookup issues exactly one on-chain call, caches the result, and every
subsequent call is served from the cache with no further I/O; but a failed
first lookup returns 18 without caching anything, so the next call
issues the on-chain call again. -/
theorem C7_amended_decimals_cache (addr : String) (d : ℕ) (cache : List (String × ℕ))
    (hmiss : cache.lookup (string_lower addr) = none) :
    (get_token_decimals cache addr (some d)).decimals = d ∧
    (get_token_decimals cache addr (some d)).onchain_calls = 1 ∧
    (∀ o, get_token_decimals (get_token_decimals cache addr (some d)).cache addr o =
      ⟨d, (get_token_decimals cache addr (some d)).cache, 0⟩) ∧
    get_token_decimals cache addr none = ⟨18, cache, 1⟩ := by
  have hhit : (cache ++ [(string_lower addr, d)]).lookup (string_lower addr) = some d :=
    lookup_append_of_none cache (string_lower addr) d hmiss
  refine ⟨?_, ?_, ?_, ?_⟩
  · simp only [get_token_decimals, hmiss]
  · simp only [get_token_decimals, hmiss]
  · intro o
    simp only [get_token_decimals, hmiss, hhit]
  · simp only [get_token_decimals, hmiss]

/-- Witness for C7 (amended): with an empty cache, a successful lookup of 6
decimals is cached, and the following call performs no on-chain I/O. -/
theorem C7_amended_decimals_cache_witness :
    (get_token_decimals [] "0xabc" (some 6)).decimals = 6 ∧
    get_token_decimals (get_token_decimals [] "0xabc" (some 6)).cache "0xabc" none =
      ⟨6, (get_token_decimals [] "0xabc" (some 6)).cache, 0⟩ :=
  ⟨(C7_amended_decimals_cache "0xabc" 6 [] (by decide)).1,
   (C7_amended_decimals_cache "0xabc" 6 [] (by decide)).2.2.1 none⟩

/-- Python int() agrees with the floor on non-negative arguments. -/
theorem pythonInt_eq_floor_of_nonneg (q : ℚ) (h : 0 ≤ q) : pythonInt q = ⌊q⌋ := by
  simp [pythonInt, h]

/-- Any opportunity the evaluator returns carries the evaluated token's
address and stable-token key, the notional flash-loan amount converted to
the stable asset's smallest unit, and a net profit above the threshold. -/
theorem check_some_fields (pc : PriceCache) (sel : List String) (ta ts st : String)
    (dec : ℕ) (gas : ℚ) (opp : ArbitrageOpportunity)
    (h : check_and_execute_opportunity pc sel ta ts st dec gas = some opp) :
    opp.token_address = ta ∧ opp.stable_token = st ∧
    opp.amount = pythonInt (max_flash_loan_amount * 10 ^ dec) ∧
    min_profit_threshold < opp.net_profit := by
  simp only [check_and_execute_opportunity] at h
  split at h
  · simp at h
  · split at h
    · split at h
      · simp at h
      · split at h
        · split at h
          case isTrue hg =>
            obtain rfl := (Option.some.inj h).symm
            exact ⟨rfl, rfl, rfl, hg⟩
          case isFalse _ => simp at h
        · simp at h
    · simp at h

/-- Claim C8: for every opportunity the evaluator produces, the coordinator
builds the on-chain parameter tuple as, in order: the buy token (the
evaluated token's address), the stable asset's address, the flash-loan
amount as an integer in the stable asset's smallest unit, the buy-DEX
router, the sell-DEX router, the caller's account address, and a minimum
profit equal to 90% of the estimated net profit expressed in the stable
asset's 10^6 smallest units (truncated to an integer, so it is the
greatest integer not exceeding that 90% margin). -/
theorem C8_execute_params (pc : PriceCache) (sel : List String) (ta ts : String)
    (dec : ℕ) (gas : ℚ) (acct : String) (opp : ArbitrageOpportunity)
    (h : check_and_execute_opportunity pc sel ta ts "USDC" dec gas = some opp) :
    (execute_params acct opp).tokenA = ta ∧
    (execute_params acct opp).tokenB = USDC_ADDRESS ∧
    (execute_params acct opp).flashLoanAmount = ⌊max_flash_loan_amount * 10 ^ dec⌋ ∧
    (execute_params acct opp).dexLowPrice =
      ((dexes.lookup opp.buy_dex).getD ⟨"", "", ""⟩).router_address ∧
    (execute_params acct opp).dexHighPrice =
      ((dexes.lookup opp.sell_dex).getD ⟨"", "", ""⟩).router_address ∧
    (execute_params acct opp).user = acct ∧
    ((execute_params acct opp).minProfit : ℚ) ≤ opp.net_profit * 10 ^ 6 * (0.9 : ℚ) ∧
    opp.net_profit * 10 ^ 6 * (0.9 : ℚ) < ((execute_params acct opp).minProfit : ℚ) + 1 := by
  obtain ⟨hta, hst, ham, hnet⟩ := check_some_fields pc sel ta ts "USDC" dec gas opp h
  have hnet0 : (0 : ℚ) ≤ opp.net_profit := by
    have h10 : (10 : ℚ) < opp.net_profit := by
      simpa [min_profit_threshold] using hnet
    linarith
  have hq0 : (0 : ℚ) ≤ opp.net_profit * 10 ^ 6 * (0.9 : ℚ) :=
    mul_nonneg (mul_nonneg hnet0 (by norm_num)) (by norm_num)
  have hfl : (0 : ℚ) ≤ max_flash_loan_amount * 10 ^ dec :=
    mul_nonneg (by norm_num [max_flash_loan_amount]) (pow_nonneg (by norm_num) dec)
  have hminP : (execute_params acct opp).minProfit =
      ⌊opp.net_profit * 10 ^ 6 * (0.9 : ℚ)⌋ := by
    simp only [execute_params]
    exact pythonInt_eq_floor_of_nonneg _ hq0
  refine ⟨hta, ?_, ?_, rfl, rfl, rfl, ?_, ?_⟩
  · show (stable_tokens.lookup opp.stable_token).getD "" = USDC_ADDRESS
    rw [hst]
    rfl
  · show opp.amount = ⌊max_flash_loan_amount * 10 ^ dec⌋
    rw [ham]
    exact pythonInt_eq_floor_of_nonneg _ hfl
  · rw [hminP]; exact Int.floor_le _
  · rw [hminP]; exact Int.lt_floor_add_one _

/-- Witness for C8: the concrete opportunity from cached prices
{dexA: 200, dexB: 204} produces the fully-evaluated parameter tuple. -/
theorem C8_execute_params_witness :
    (execute_params "0xme" c8_opp).tokenA = "0xtok2" ∧
    (execute_params "0xme" c8_opp).tokenB = USDC_ADDRESS ∧
    (execute_params "0xme" c8_opp).flashLoanAmount =
      ⌊max_flash_loan_amount * 10 ^ (6 : ℕ)⌋ ∧
    (execute_params "0xme" c8_opp).dexLowPrice =
      ((dexes.lookup c8_opp.buy_dex).getD ⟨"", "", ""⟩).router_address ∧
    (execute_params "0xme" c8_opp).dexHighPrice =
      ((dexes.lookup c8_opp.sell_dex).getD ⟨"", "", ""⟩).router_address ∧
    (execute_params "0xme" c8_opp).user = "0xme" ∧
    ((execute_params "0xme" c8_opp).minProfit : ℚ) ≤
      c8_opp.net_profit * 10 ^ 6 * (0.9 : ℚ) ∧
    c8_opp.net_profit * 10 ^ 6 * (0.9 : ℚ) <
      ((execute_params "0xme" c8_opp).minProfit : ℚ) + 1 :=
  C8_execute_params [("0xtok2", [("dexA", 200), ("dexB", 204)])] ["dexA", "dexB"]
    "0xtok2" "TK2" 6 10 "0xme" c8_opp (by
      have hprices : collect_prices [("0xtok2", [("dexA", (200 : ℚ)), ("dexB", 204)])]
          "0xtok2" ["dexA", "dexB"] = [("dexA", 200), ("dexB", 204)] := by decide
      have hmin : min_by_price [("dexA", (200 : ℚ)), ("dexB", 204)] =
          some ("dexA", 200) := by decide
      have hmax : max_by_price [("dexA", (200 : ℚ)), ("dexB", 204)] =
          some ("dexB", 204) := by decide
      simp only [check_and_execute_opportunity, hprices, hmin, hmax]
      norm_num [price_diff_percent, spread_band_ok, min_profit_threshold,
        max_flash_loan_amount, pythonInt, c8_opp, ArbitrageOpportunity.mk.injEq]
      exact fun hcon => absurd hcon (by decide))

/-- Membership in assoc_set comes from the original list or is the new pair. -/
theorem assoc_set_mem {α : Type} (m : List (String × α)) (k : String) (v : α)
    (kv : String × α) (h : kv ∈ assoc_set m k v) : kv ∈ m ∨ kv = (k, v) := by
  induction m with
  | nil =>
    simp only [assoc_set, List.mem_singleton] at h
    exact Or.inr h
  | cons x xs ih =>
    obtain ⟨k', v'⟩ := x
    simp only [assoc_set] at h
    split at h
    · rcases List.mem_cons.mp h with h1 | h1
      · exact Or.inr h1
      · exact Or.inl (List.mem_cons_of_mem _ h1)
    · rcases List.mem_cons.mp h with h1 | h1
      · exact Or.inl (by rw [h1]; exact List.mem_cons_self _ _)
      · rcases ih h1 with h2 | h2
        · exact Or.inl (List.mem_cons_of_mem _ h2)
        · exact Or.inr h2

/-- A successful lookup yields a member of the association list. -/
theorem lookup_mem {α : Type} (l : List (String × α)) (k : String) (v : α)
    (h : l.lookup k = some v) : (k, v) ∈ l := by
  induction l with
  | nil => simp [List.lookup] at h
  | cons x xs ih =>
    obtain ⟨k', v'⟩ := x
    simp only [List.lookup] at h
    cases hk : k == k' with
    | true =>
      rw [hk] at h
      obtain rfl := Option.some.inj h
      have hkk : k = k' := by simpa using hk
      rw [hkk]
      exact List.mem_cons_self _ _
    | false =>
      rw [hk] at h
      exact List.mem_cons_of_mem _ (ih h)

/-- Every price the quote client returns satisfies the sanity bounds. -/
theorem get_token_price_valid (raw : Option ℤ) (dec : ℕ) (p : ℚ)
    (h : get_token_price raw dec = some p) : valid_price p := by
  cases raw with
  | none => simp [get_token_price] at h
  | some a =>
    simp only [get_token_price] at h
    by_cases hc : 0 < (a : ℚ) / 10 ^ dec ∧ (a : ℚ) / 10 ^ dec < 10 ^ 12
    · rw [if_pos hc] at h
      obtain rfl := Option.some.inj h
      exact hc
    · rw [if_neg hc] at h
      simp at h

/-- Writing one valid price into the cache preserves validity of all
stored prices. -/
theorem price_cache_set_valid (cache : PriceCache) (key dk : String) (p : ℚ)
    (hc : cache_valid cache) (hp : valid_price p) :
    cache_valid (price_cache_set cache key dk p) := by
  intro tk entry hmem dk2 p2 hmem2
  simp only [price_cache_set] at hmem
  rcases assoc_set_mem _ _ _ _ hmem with h | h
  · exact hc tk entry h dk2 p2 hmem2
  · rw [Prod.mk.injEq] at h
    obtain ⟨rfl, rfl⟩ := h
    rcases assoc_set_mem _ _ _ _ hmem2 with h2 | h2
    · cases hl : cache.lookup tk with
      | none => rw [hl] at h2; simp at h2
      | some entry0 =>
        rw [hl] at h2
        exact hc tk entry0 (lookup_mem cache tk entry0 hl) dk2 p2 h2
    · rw [Prod.mk.injEq] at h2
      obtain ⟨rfl, rfl⟩ := h2
      exact hp

/-- One price update preserves validity of all stored prices. -/
theorem update_price_for_dex_valid (cache : PriceCache) (ta dk : String)
    (raw : Option ℤ) (dec : ℕ) (hc : cache_valid cache) :
    cache_valid (update_price_for_dex cache ta dk raw dec) := by
  unfold update_price_for_dex
  split
  · exact hc
  · next p hq =>
    split
    · exact hc
    · exact price_cache_set_valid _ _ _ _ hc (get_token_price_valid raw dec p hq)

/-- The empty cache is vacuously valid. -/
theorem cache_valid_nil : cache_valid [] := by
  intro tk entry hmem
  simp at hmem

/-- Any sequence of price updates preserves validity. -/
theorem run_updates_valid (us : List PriceUpdate) (cache : PriceCache)
    (hc : cache_valid cache) : cache_valid (run_updates cache us) := by
  induction us generalizing cache with
  | nil => exact hc
  | cons u us ih => exact ih _ (update_price_for_dex_valid _ _ _ _ _ hc)

/-- Lookup of the written key after assoc_set. -/
theorem assoc_set_lookup_self {α : Type} (m : List (String × α)) (k : String) (v : α) :
    (assoc_set m k v).lookup k = some v := by
  induction m with
  | nil => simp [assoc_set, List.lookup]
  | cons x xs ih =>
    obtain ⟨k', v'⟩ := x
    simp only [assoc_set]
    split
    · simp [List.lookup]
    · next hk =>
      have hb : (k == k') = false := beq_eq_false_iff_ne.mpr (fun hkk => hk hkk.symm)
      simp only [List.lookup, hb]
      exact ih

/-- Lookup of any other key is unchanged by assoc_set. -/
theorem assoc_set_lookup_ne {α : Type} (m : List (String × α)) (k k2 : String) (v : α)
    (h : k2 ≠ k) : (assoc_set m k v).lookup k2 = m.lookup k2 := by
  induction m with
  | nil => simp [assoc_set, List.lookup, beq_eq_false_iff_ne.mpr h]
  | cons x xs ih =>
    obtain ⟨k', v'⟩ := x
    simp only [assoc_set]
    split
    · next hk =>
      subst hk
      simp [List.lookup, beq_eq_false_iff_ne.mpr h]
    · next hk =>
      simp only [List.lookup]
      cases hb : k2 == k' with
      | true => rfl
      | false => exact ih

/-- A cache write never removes any existing (token, DEX) entry. -/
theorem price_cache_set_preserves (cache : PriceCache) (key dk : String) (p : ℚ)
    (tk dx : String) (h : (lookup2 cache tk dx).isSome = true) :
    (lookup2 (price_cache_set cache key dk p) tk dx).isSome = true := by
  simp only [lookup2, price_cache_set] at h ⊢
  by_cases hk : tk = key
  · subst hk
    rw [assoc_set_lookup_self]
    simp only [Option.getD_some]
    by_cases hd : dx = dk
    · subst hd
      rw [assoc_set_lookup_self]
      rfl
    · rw [assoc_set_lookup_ne _ _ _ _ hd]
      exact h
  · rw [assoc_set_lookup_ne _ _ _ _ hk]
    exact h

/-- One price update never removes any existing (token, DEX) entry. -/
theorem update_price_preserves (cache : PriceCache) (ta dk : String) (raw : Option ℤ)
    (dec : ℕ) (tk dx : String) (h : (lookup2 cache tk dx).isSome = true) :
    (lookup2 (update_price_for_dex cache ta dk raw dec) tk dx).isSome = true := by
  unfold update_price_for_dex
  split
  · exact h
  · split
    · exact h
    · exact price_cache_set_preserves _ _ _ _ _ _ h

/-- Claim C10: starting from an empty cache, after any sequence of price
updates every stored price is strictly positive and strictly below 1e12;
an update whose quote comes back none leaves the cache entirely
unchanged; and an update never deletes an existing (token, DEX) entry. -/
theorem C10_price_cache_invariant :
    (∀ us : List PriceUpdate, cache_valid (run_updates [] us)) ∧
    (∀ cache ta dk raw dec, get_token_price raw dec = none →
      update_price_for_dex cache ta dk raw dec = cache) ∧
    (∀ cache ta dk raw dec tk dx, (lookup2 cache tk dx).isSome = true →
      (lookup2 (update_price_for_dex cache ta dk raw dec) tk dx).isSome = true) := by
  refine ⟨?_, ?_, ?_⟩
  · intro us
    exact run_updates_valid us [] cache_valid_nil
  · intro cache ta dk raw dec h
    unfold update_price_for_dex
    rw [h]
  · intro cache ta dk raw dec tk dx h
    exact update_price_preserves cache ta dk raw dec tk dx h

/-- Witness for C10: a none quote leaves a concrete cache unchanged, and a
valid update preserves the existing entry. -/
theorem C10_price_cache_invariant_witness :
    update_price_for_dex [("t", [("d", 5)])] "T2" "d2" none 6 = [("t", [("d", 5)])] ∧
    (lookup2 (update_price_for_dex [("t", [("d", 5)])] "t" "d" (some (7 * 10 ^ 6)) 6)
      "t" "d").isSome = true :=
  ⟨C10_price_cache_invariant.2.1 [("t", [("d", 5)])] "T2" "d2" none 6 rfl,
   C10_price_cache_invariant.2.2 [("t", [("d", 5)])] "t" "d" (some (7 * 10 ^ 6)) 6
     "t" "d" (by decide)⟩
